import Mathlib

/-!
# AgroNexus backend — shallow embedding and verification

This file embeds the endpoint logic of `backend/main.py` (a FastAPI service
over a Supabase relational store) as pure Lean functions over an explicit
database state, and proves the specification claims about it.

Modelling conventions (applied uniformly, documented once here):
* The external relational store is a record `DB` of tables (lists of rows);
  every Supabase call (`select`/`insert`/`update`/`delete`/`upsert`) is
  translated to the corresponding pure list operation on the current `DB`.
  `select ... .eq(f, v)` returns the filtered list and `.data[0]` is `head?`.
* `uuid.uuid4()` id generation is modelled by a monotone counter `DB.nextId`
  (fresh, never-before-used identifiers); ids are `Nat`.
* `datetime.utcnow()` wall-clock timestamps are environment input; the only
  timestamp the modelled logic reads back is `orders.created_at` (sort key of
  the order listing), modelled by the same monotone counter, so later-created
  orders have larger `created_at`.  Other `created_at`/`updated_at` columns are
  write-only in the modelled endpoints and are omitted.
* Python floats (prices, amounts) are modelled as `Int`; the arithmetic the
  claims are about (sums of products) is representation-independent.
* Python truthiness on optional query/body strings (`if search:`) treats
  `None` and `""` alike; `truthy` reproduces this.
* Handlers mutate the store by returning the new `DB` alongside the result.
  An `HTTPException` raised before any write returns the input `DB` unchanged;
  a failure in the middle of a write sequence returns the partially written
  `DB` (the service has no transactions or compensation).
* `hashlib.sha256` internals are out of scope (a black-box one-way function);
  the hash is a parameter `H` applied to the salted input exactly as
  `get_password_hash` builds it.
-/

namespace AgroNexus

/-- Row of the `users` table, as written by `register_user` in main.py.
`password_hash` is `Option` because a legacy row may lack the column value
(the login endpoint back-fills it). -/
structure User where
  id : Nat
  username : String
  email : String
  password_hash : Option String
  first_name : Option String
  last_name : Option String
  farm_name : Option String
  location : Option String
  user_type : String
  phone : Option String
  address : Option String
  profile_image_url : Option String
deriving Repr, DecidableEq

/-- Row of the `products` table, as written by `create_product` in main.py. -/
structure Product where
  id : Nat
  name : String
  category : String
  price : Int
  description : Option String
  quantity : Int
  unit : Option String
  farmer_id : Nat
  images : List String
  status : String
deriving Repr, DecidableEq

/-- Row of the `carts` table. -/
structure Cart where
  id : Nat
  user_id : Nat
  total : Int
deriving Repr, DecidableEq

/-- Row of the `cart_items` table: one line item of a cart, with the price
snapshotted when the item was added. -/
structure CartItem where
  id : Nat
  cart_id : Nat
  product_id : Nat
  quantity : Int
  price : Int
deriving Repr, DecidableEq

/-- Row of the `orders` table.  `shipping_address` / `payment_info` are opaque
JSON blobs in the source, modelled as opaque strings. -/
structure Order where
  id : Nat
  buyer_id : Nat
  farmer_id : Nat
  total_amount : Int
  status : String
  shipping_address : Option String
  delivery_address : Option String
  delivery_notes : Option String
  phone_number : Option String
  payment_info : Option String
  created_at : Nat
deriving Repr, DecidableEq

/-- Row of the `order_items` table. -/
structure OrderItem where
  id : Nat
  order_id : Nat
  product_id : Nat
  quantity : Int
  price : Int
deriving Repr, DecidableEq

/-- The external data store: one list per table, plus the fresh-id counter
modelling `uuid.uuid4()` (see header). -/
structure DB where
  users : List User
  products : List Product
  carts : List Cart
  cart_items : List CartItem
  orders : List Order
  order_items : List OrderItem
  nextId : Nat
deriving Repr, DecidableEq

/-- Allocate a fresh identifier (models `uuid.uuid4()`). -/
def freshId (db : DB) : Nat × DB :=
  (db.nextId, { db with nextId := db.nextId + 1 })

/-- Error taxonomy of the service (main.py raises `HTTPException`s):
400 → `badRequest`, 401 → `unauthorized`, 403 → `forbidden`, 404 → `notFound`,
500 → `internal`; FastAPI rejects out-of-range `Query` parameters with a 422
`validation` error before the handler runs. -/
inductive Err where
  | validation (msg : String)
  | badRequest (msg : String)
  | unauthorized (msg : String)
  | forbidden (msg : String)
  | notFound (msg : String)
  | internal (msg : String)
deriving Repr, DecidableEq

deriving instance DecidableEq for Except

/-- Python truthiness for optional string parameters: `None` and `""` are
both falsy (`if search:` in main.py). -/
def truthy : Option String → Option String
  | some "" => none
  | o => o

/-- Case-insensitive substring test over character lists, for SQL
`ilike '%pat%'` filters. -/
def containsSub (needle : List Char) : List Char → Bool
  | [] => needle.isPrefixOf []
  | c :: rest => needle.isPrefixOf (c :: rest) || containsSub needle rest

/-- `hay ilike '%needle%'`: case-insensitive containment. -/
def ilikeContains (hay needle : String) : Bool :=
  containsSub needle.toLower.data hay.toLower.data

-- ================== AUTHENTICATION (main.py lines 145-177) ==================

/-- `get_password_hash` (main.py line 158): sha256 of password + salt +
secret.  The sha256 internals are out of scope (black-box one-way function),
abstracted as the parameter `H` applied to the salted input. -/
def get_password_hash (H : String → String) (salt secret : String)
    (password : String) : String :=
  H (password ++ salt ++ secret)

/-- `verify_password` (main.py line 152): recomputes the hash and compares.
(The `except` clause in the source cannot trigger: the hash is total.) -/
def verify_password (H : String → String) (salt secret : String)
    (plain hashed : String) : Bool :=
  get_password_hash H salt secret plain == hashed

/-- `supabase.table('users').select('*').eq('email', email)` with `.data[0]`. -/
def findUserByEmail (db : DB) (email : String) : Option User :=
  (db.users.filter (fun u => u.email == email)).head?

/-- The claims a bearer token carries (`create_access_token` payload:
`sub`, `email`, `user_type`); the JWT encoding itself is out of scope. -/
structure Token where
  sub : Nat
  email : String
  user_type : String
deriving Repr, DecidableEq

/-- `full_name` derivation added to response user objects (main.py lines
282-285): first+last when either is truthy, else username. -/
def full_name_of (u : User) : String :=
  if (truthy u.first_name).isSome || (truthy u.last_name).isSome then
    ((u.first_name.getD "") ++ " " ++ (u.last_name.getD "")).trim
  else u.username

/-- Response shape of a successful login: the user row with the password
hash stripped, the derived display name, and the token. -/
structure LoginOk where
  user : User
  full_name : String
  token : Token
deriving Repr, DecidableEq

/-- Remove the `password_hash` field before serializing a user
(`del user['password_hash']`). -/
def stripHash (u : User) : User := { u with password_hash := none }

/-- `login_user` (main.py lines 259-296): look up by email (401 if absent);
lazily back-fill a missing password digest from the supplied password; 401 on
digest mismatch; otherwise return the stripped user and a token. -/
def login_user (H : String → String) (salt secret : String) (db : DB)
    (email password : String) : DB × Except Err LoginOk :=
  match findUserByEmail db email with
  | none => (db, .error (.unauthorized "Invalid email or password"))
  | some u =>
    let backfilled : DB × User :=
      match u.password_hash with
      | none =>
        let d := get_password_hash H salt secret password
        let users1 := db.users.map (fun v =>
          if v.id == u.id then { v with password_hash := some d } else v)
        ({ db with users := users1 }, { u with password_hash := some d })
      | some _ => (db, u)
    let db1 := backfilled.1
    let u1 := backfilled.2
    if verify_password H salt secret password (u1.password_hash.getD "") then
      (db1, .ok { user := stripHash u1, full_name := full_name_of u1,
                  token := { sub := u1.id, email := u1.email,
                             user_type := u1.user_type } })
    else
      (db1, .error (.unauthorized "Invalid email or password"))

-- ================== PRODUCTS (main.py lines 374-515) ==================

/-- The filter applied by both the page query and the count query of
`get_products`: optional category equality, optional owning-farmer equality,
optional case-insensitive substring search over name OR description
(`name.ilike.%s%,description.ilike.%s%`; a NULL description matches nothing). -/
def productMatches (category : Option String) (farmerId : Option Nat)
    (search : Option String) (p : Product) : Bool :=
  (match truthy category with
   | none => true
   | some c => p.category == c) &&
  (match farmerId with
   | none => true
   | some f => p.farmer_id == f) &&
  (match truthy search with
   | none => true
   | some s =>
     ilikeContains p.name s ||
     (match p.description with
      | none => false
      | some d => ilikeContains d s))

/-- Response of `get_products`: the page of products plus the pagination
block.  (The source also embeds four display-only seller columns
(`users(full_name, profile_image_url, farm_name, location)`) per product;
that projection touches no modelled claim and is omitted.) -/
structure ProductsResp where
  products : List Product
  page : Nat
  limit : Nat
  total : Nat
  pages : Nat
deriving Repr, DecidableEq

/-- `get_products` (main.py lines 374-417): FastAPI validates
`page >= 1`, `1 <= limit <= 100` (422 otherwise); the handler filters,
takes the inclusive range `[start, start+limit-1]`, recounts with the same
filters, and reports `pages = (total + limit - 1) // limit`. -/
def get_products (db : DB) (category : Option String) (farmerId : Option Nat)
    (search : Option String) (page limit : Nat) : Except Err ProductsResp :=
  if page < 1 || limit < 1 || 100 < limit then
    .error (.validation "query parameter out of range")
  else
    let filtered := db.products.filter (productMatches category farmerId search)
    let start := (page - 1) * limit
    let total := filtered.length
    .ok { products := (filtered.drop start).take limit,
          page := page, limit := limit, total := total,
          pages := (total + limit - 1) / limit }

/-- Partial update body for a product (`ProductUpdate`, exclude_unset). -/
structure ProductPatch where
  name : Option String
  category : Option String
  price : Option Int
  description : Option (Option String)
  quantity : Option Int
  unit : Option (Option String)
  images : Option (List String)
  status : Option String
deriving Repr, DecidableEq

/-- Apply the provided fields of a patch to a product row. -/
def applyPatch (patch : ProductPatch) (p : Product) : Product :=
  { p with
    name := patch.name.getD p.name,
    category := patch.category.getD p.category,
    price := patch.price.getD p.price,
    description := patch.description.getD p.description,
    quantity := patch.quantity.getD p.quantity,
    unit := patch.unit.getD p.unit,
    images := patch.images.getD p.images,
    status := patch.status.getD p.status }

/-- `update_product` (main.py lines 473-499): select scoped to
`id == product_id AND farmer_id == acting user` — absent row and non-owned
row take the same 404 branch; on success the patch is written by id. -/
def update_product (db : DB) (actorId productId : Nat) (patch : ProductPatch) :
    DB × Except Err Product :=
  match (db.products.filter
      (fun p => p.id == productId && p.farmer_id == actorId)).head? with
  | none => (db, .error (.notFound "Product not found or unauthorized"))
  | some _ =>
    let products1 := db.products.map
      (fun p => if p.id == productId then applyPatch patch p else p)
    let db1 := { db with products := products1 }
    match (db1.products.filter (fun p => p.id == productId)).head? with
    | some p1 => (db1, .ok p1)
    | none => (db1, .error (.internal "Product update failed"))

/-- `delete_product` (main.py lines 501-515): same ownership-scoped select
and the same 404 as `update_product`; on success deletes by id. -/
def delete_product (db : DB) (actorId productId : Nat) :
    DB × Except Err Unit :=
  match (db.products.filter
      (fun p => p.id == productId && p.farmer_id == actorId)).head? with
  | none => (db, .error (.notFound "Product not found or unauthorized"))
  | some _ =>
    ({ db with products := db.products.filter (fun p => !(p.id == productId)) },
     .ok ())

-- ================== CART (main.py lines 765-878) ==================

/-- Sum of `price * quantity` over the persisted line items of a cart —
the recompute both cart mutation endpoints run after writing
(`sum(item['price'] * item['quantity'] for item in cart_items.data)`). -/
def cartLineSum (db : DB) (cartId : Nat) : Int :=
  ((db.cart_items.filter (fun it => it.cart_id == cartId)).map
    (fun it => it.price * it.quantity)).sum

/-- `supabase.table('carts').update({"total": t}).eq('id', cartId)`. -/
def setCartTotal (db : DB) (cartId : Nat) (t : Int) : DB :=
  { db with
    carts := db.carts.map (fun c =>
      if c.id == cartId then { c with total := t } else c) }

/-- `upsert(item, on_conflict='cart_id,product_id')`: replace the existing
line for the same (cart, product) key with the new row, else append. -/
def upsertCartItem (items : List CartItem) (it : CartItem) : List CartItem :=
  if items.any (fun x => x.cart_id == it.cart_id && x.product_id == it.product_id) then
    items.map (fun x =>
      if x.cart_id == it.cart_id && x.product_id == it.product_id then it else x)
  else items ++ [it]

/-- `add_to_cart` (main.py lines 788-835): find (or lazily create) the
acting user's cart; 404 if the product is absent (a lazily created cart
persists even then); upsert the line at the product's current price; then
recompute the cart total from the persisted lines and write it. -/
def add_to_cart (db : DB) (userId productId : Nat) (qty : Int) :
    DB × Except Err Unit :=
  let found : DB × Nat :=
    match (db.carts.filter (fun c => c.user_id == userId)).head? with
    | none =>
      let fr := freshId db
      let newCart : Cart := { id := fr.1, user_id := userId, total := 0 }
      ({ fr.2 with carts := fr.2.carts ++ [newCart] }, fr.1)
    | some c => (db, c.id)
  let db1 := found.1
  let cartId := found.2
  match (db1.products.filter (fun p => p.id == productId)).head? with
  | none => (db1, .error (.notFound "Product not found"))
  | some p =>
    let fr := freshId db1
    let item : CartItem := { id := fr.1, cart_id := cartId,
                             product_id := productId, quantity := qty,
                             price := p.price }
    let db3 := { fr.2 with cart_items := upsertCartItem fr.2.cart_items item }
    (setCartTotal db3 cartId (cartLineSum db3 cartId), .ok ())

/-- `remove_from_cart` (main.py lines 837-858): 404 if the user has no cart;
delete the (cart, product) lines; recompute and write the total. -/
def remove_from_cart (db : DB) (userId productId : Nat) :
    DB × Except Err Unit :=
  match (db.carts.filter (fun c => c.user_id == userId)).head? with
  | none => (db, .error (.notFound "Cart not found"))
  | some c =>
    let items1 := db.cart_items.filter
      (fun it => !(it.cart_id == c.id && it.product_id == productId))
    let db1 := { db with cart_items := items1 }
    (setCartTotal db1 c.id (cartLineSum db1 c.id), .ok ())

/-- `clear_cart` (main.py lines 860-878): 404 if the user has no cart;
delete all the cart's lines and write total 0. -/
def clear_cart (db : DB) (userId : Nat) : DB × Except Err Unit :=
  match (db.carts.filter (fun c => c.user_id == userId)).head? with
  | none => (db, .error (.notFound "Cart not found"))
  | some c =>
    let items1 := db.cart_items.filter (fun it => !(it.cart_id == c.id))
    let db1 := { db with cart_items := items1 }
    (setCartTotal db1 c.id 0, .ok ())

-- ================== ORDERS (main.py lines 527-762) ==================

/-- One item of an order request / one per-farmer checkout line:
product id, quantity, and the price written into the order item. -/
structure OSpec where
  product_id : Nat
  quantity : Int
  price : Int
deriving Repr, DecidableEq

/-- The non-atomic inventory decrement both order paths run per item
(main.py lines 626-629 and 707-710): read the current quantity of the first
row matching the product id (`.data[0]['quantity']`) and write
`quantity - orderedQuantity` to every row with that id.  No sufficiency
check.  (When no row matches, the source raises and the handler aborts;
`processSpecs` models that abort — this no-change branch is never reached
on a successful run.) -/
def decStep (products : List Product) (sp : OSpec) : List Product :=
  match (products.filter (fun p => p.id == sp.product_id)).head? with
  | none => products
  | some p => products.map (fun q =>
      if q.id == sp.product_id then { q with quantity := p.quantity - sp.quantity } else q)

/-- Sequential application of the per-item decrement. -/
def decFold (specs : List OSpec) (products : List Product) : List Product :=
  specs.foldl decStep products

/-- The per-item loop shared by `create_order` and `checkout_order`:
allocate an order-item id, read-modify-write the product quantity (500 and
abort — with the order row already inserted and earlier decrements kept —
if the product row is absent), and accumulate the order items, which the
caller bulk-inserts only after the whole loop succeeds. -/
def processSpecs (oid : Nat) : DB → List OrderItem → List OSpec →
    DB × Except Err (List OrderItem)
  | db, acc, [] => (db, .ok acc)
  | db, acc, sp :: rest =>
    let fr := freshId db
    let it : OrderItem := { id := fr.1, order_id := oid,
                            product_id := sp.product_id,
                            quantity := sp.quantity, price := sp.price }
    match (fr.2.products.filter (fun p => p.id == sp.product_id)).head? with
    | none => (fr.2, .error (.internal "list index out of range"))
    | some _ =>
      processSpecs oid { fr.2 with products := decStep fr.2.products sp }
        (acc ++ [it]) rest

/-- Request body of `POST /api/orders` (`OrderCreate`). -/
structure OrderCreateReq where
  farmer_id : Nat
  total_amount : Int
  shipping_address : Option String
  delivery_address : Option String
  delivery_notes : Option String
  phone_number : Option String
  payment_info : Option String
  items : List OSpec
deriving Repr, DecidableEq

/-- `create_order` (main.py lines 586-642): insert a single pending order
with the caller-supplied farmer, total and item prices, then run the
per-item decrement loop and bulk-insert the order items. -/
def create_order (db : DB) (buyerId : Nat) (req : OrderCreateReq) :
    DB × Except Err Order :=
  let fr := freshId db
  let order : Order := { id := fr.1, buyer_id := buyerId,
                         farmer_id := req.farmer_id,
                         total_amount := req.total_amount, status := "pending",
                         shipping_address := req.shipping_address,
                         delivery_address := req.delivery_address,
                         delivery_notes := req.delivery_notes,
                         phone_number := req.phone_number,
                         payment_info := req.payment_info, created_at := fr.1 }
  let db2 := { fr.2 with orders := fr.2.orders ++ [order] }
  match processSpecs order.id db2 [] req.items with
  | (db3, .error e) => (db3, .error e)
  | (db3, .ok its) =>
    if its.isEmpty then (db3, .ok order)
    else ({ db3 with order_items := db3.order_items ++ its }, .ok order)

/-- Checkout request body (`CheckoutData`). -/
structure CheckoutData where
  delivery_address : String
  delivery_notes : Option String
  phone_number : String
deriving Repr, DecidableEq

/-- The cart's line items as loaded by the checkout select
(`carts.select('*, cart_items(*, products(*))')`). -/
def cartItemsOf (db : DB) (cartId : Nat) : List CartItem :=
  db.cart_items.filter (fun it => it.cart_id == cartId)

/-- The `products(*)` join of each cart line (`item['products']`): the first
product row with the line's product id.  `none` when some line references a
missing product — the source then raises on `product['farmer_id']` and the
request fails with a 500 before any write. -/
def joinProducts (db : DB) (items : List CartItem) :
    Option (List (CartItem × Product)) :=
  items.mapM (fun it =>
    ((db.products.filter (fun p => p.id == it.product_id)).head?).map
      (fun p => (it, p)))

/-- The per-farmer accumulator of the checkout grouping loop
(`farmer_orders[farmer_id] = {"items": [...], "total_amount": n}`). -/
structure FarmerGroup where
  items : List OSpec
  total_amount : Int
deriving Repr, DecidableEq

/-- Append one line to a farmer's group: push the item and add
`price * quantity` to the running total (main.py lines 670-675). -/
def extendGroup (g : FarmerGroup) (it : OSpec) : FarmerGroup :=
  { items := g.items ++ [it], total_amount := g.total_amount + it.price * it.quantity }

/-- Insert one line into the per-farmer partition: update the existing
entry for `fid` (Python dicts keep insertion order), else append a new one. -/
def addToGroups : List (Nat × FarmerGroup) → Nat → OSpec → List (Nat × FarmerGroup)
  | [], fid, it => [(fid, extendGroup { items := [], total_amount := 0 } it)]
  | (f, g) :: rest, fid, it =>
    if f = fid then (f, extendGroup g it) :: rest
    else (f, g) :: addToGroups rest fid it

/-- The order-item spec the checkout builds from a joined cart line:
`product['id']`, `item['quantity']`, and the product's current
`product['price']` (main.py lines 670-674). -/
def mkSpec (ip : CartItem × Product) : OSpec :=
  { product_id := ip.2.id, quantity := ip.1.quantity, price := ip.2.price }

/-- The grouping loop of `checkout_order` (main.py lines 659-675). -/
def buildGroups (joined : List (CartItem × Product)) : List (Nat × FarmerGroup) :=
  joined.foldl (fun gs ip => addToGroups gs ip.2.farmer_id (mkSpec ip)) []

/-- The per-farmer order-creation loop of `checkout_order` (main.py lines
677-715): for each group insert a pending order with the group's total, run
the item loop (order items + inventory decrements), and collect the
inserted order rows. -/
def createOrdersLoop (buyerId : Nat) (cd : CheckoutData) :
    DB → List Order → List (Nat × FarmerGroup) → DB × Except Err (List Order)
  | db, acc, [] => (db, .ok acc)
  | db, acc, (fid, g) :: rest =>
    let fr := freshId db
    let order : Order := { id := fr.1, buyer_id := buyerId, farmer_id := fid,
                           total_amount := g.total_amount, status := "pending",
                           shipping_address := none,
                           delivery_address := some cd.delivery_address,
                           delivery_notes := cd.delivery_notes,
                           phone_number := some cd.phone_number,
                           payment_info := none, created_at := fr.1 }
    let db2 := { fr.2 with orders := fr.2.orders ++ [order] }
    match processSpecs order.id db2 [] g.items with
    | (db3, .error e) => (db3, .error e)
    | (db3, .ok its) =>
      let db4 := if its.isEmpty then db3
                 else { db3 with order_items := db3.order_items ++ its }
      createOrdersLoop buyerId cd db4 (acc ++ [order]) rest

/-- `checkout_order` (main.py lines 644-728): load the cart scoped to the
acting user (404 otherwise), 400 on an empty cart, partition the joined
lines by owning farmer, create one pending order (plus items and inventory
decrements) per farmer, then delete all the cart's lines, reset the cart
total to 0 and return every created order. -/
def checkout_order (db : DB) (userId cartId : Nat) (cd : CheckoutData) :
    DB × Except Err (List Order) :=
  match (db.carts.filter (fun c => c.id == cartId && c.user_id == userId)).head? with
  | none => (db, .error (.notFound "Cart not found"))
  | some _ =>
    let items := cartItemsOf db cartId
    if items.isEmpty then (db, .error (.badRequest "Cart is empty"))
    else
      match joinProducts db items with
      | none => (db, .error (.internal "argument of type NoneType is not subscriptable"))
      | some joined =>
        match createOrdersLoop userId cd db [] (buildGroups joined) with
        | (db1, .error e) => (db1, .error e)
        | (db1, .ok created) =>
          let items2 := db1.cart_items.filter (fun it => !(it.cart_id == cartId))
          let db2 := { db1 with cart_items := items2 }
          (setCartTotal db2 cartId 0, .ok created)

-- ================== ORDER LISTING (main.py lines 527-560) ==================

/-- Insertion sort by a boolean "comes first or equal" relation, modelling
the store's `order('created_at', desc=True)`. -/
def insertBy (le : Order → Order → Bool) (a : Order) : List Order → List Order
  | [] => [a]
  | b :: bs => if le a b then a :: b :: bs else b :: insertBy le a bs

/-- Sort a list of orders by `le`. -/
def sortBy (le : Order → Order → Bool) : List Order → List Order
  | [] => []
  | a :: as => insertBy le a (sortBy le as)

/-- One `order_items(*, products(*))` element of an order row. -/
structure OrderItemRow where
  item : OrderItem
  product : Option Product
deriving Repr, DecidableEq

/-- One element of the `GET /api/orders` response: the order row, its
embedded items, and — because the select is
`users!orders_buyer_id_fkey(*)` — the buyer's complete user row, every
column included, exactly as stored. -/
structure OrderRow where
  order : Order
  items : List OrderItemRow
  buyer : Option User
deriving Repr, DecidableEq

/-- `GET /api/orders` response: rows plus the pagination block (whose
`total` the source sets to the page length). -/
structure OrdersResp where
  orders : List OrderRow
  page : Nat
  limit : Nat
  total : Nat
deriving Repr, DecidableEq

/-- `get_orders` (main.py lines 527-560): optional status filter, rows
scoped to the actor for farmers/buyers (admins see all), newest first,
inclusive range `[start, start+limit-1]`; each row embeds its order items
(each with its product row) and the buyer's stored user row — with no
stripping of `password_hash`. -/
def get_orders (db : DB) (actor : User) (status_q : Option String)
    (page limit : Nat) : Except Err OrdersResp :=
  if page < 1 || limit < 1 || 100 < limit then
    .error (.validation "query parameter out of range")
  else
    let base := db.orders.filter (fun o =>
      (match truthy status_q with
       | none => true
       | some s => o.status == s) &&
      (if actor.user_type == "farmer" then o.farmer_id == actor.id
       else if actor.user_type == "buyer" then o.buyer_id == actor.id
       else true))
    let sorted := sortBy (fun a b => decide (b.created_at ≤ a.created_at)) base
    let pageItems := (sorted.drop ((page - 1) * limit)).take limit
    let rows := pageItems.map (fun o =>
      { order := o,
        items := (db.order_items.filter (fun it => it.order_id == o.id)).map
          (fun it =>
            { item := it,
              product := (db.products.filter (fun p => p.id == it.product_id)).head? }),
        buyer := (db.users.filter (fun u => u.id == o.buyer_id)).head? })
    .ok { orders := rows, page := page, limit := limit, total := rows.length }

/-- Does a `get_orders` response serialize some user's password digest? -/
def exposesHash (r : OrdersResp) : Bool :=
  r.orders.any (fun row =>
    match row.buyer with
    | some u => u.password_hash.isSome
    | none => false)

-- ================== SPECIFICATION-SIDE DEFINITIONS ==================

/-- First-occurrence deduplication: the distinct keys of the checkout
partition, in the order Python dict insertion produces them. -/
def dedupF : List Nat → List Nat
  | [] => []
  | x :: xs => x :: (dedupF xs).filter (fun y => !(y == x))

/-- The intended content of the group for farmer `f`: the specs of exactly
that farmer's joined lines (in cart order), and the sum of their current
price × quantity. -/
def groupFor (joined : List (CartItem × Product)) (f : Nat) : FarmerGroup :=
  { items := (joined.filter (fun ip => ip.2.farmer_id == f)).map mkSpec,
    total_amount := ((joined.filter (fun ip => ip.2.farmer_id == f)).map
      (fun ip => ip.2.price * ip.1.quantity)).sum }

/-- Reference description of the checkout partition: one group per distinct
farmer (first-occurrence order), each holding exactly that farmer's lines. -/
def groupsSpec (joined : List (CartItem × Product)) : List (Nat × FarmerGroup) :=
  (dedupF (joined.map (fun ip => ip.2.farmer_id))).map
    (fun f => (f, groupFor joined f))

/-- Well-formedness of the store's identifiers with respect to the fresh-id
counter: every stored order id and order-item owner id was allocated before
`nextId`.  (Holds for any store whose rows were created through the
modelled handlers.) -/
def dbWF (db : DB) : Prop :=
  (∀ o ∈ db.orders, o.id < db.nextId) ∧
  (∀ it ∈ db.order_items, it.order_id < db.nextId)

instance (db : DB) : Decidable (dbWF db) := by
  unfold dbWF; infer_instance

-- ================== CONCRETE STORES FOR WITNESSES ==================

/-- A sample product row (id, owning farmer, price, stock). -/
def sampleProduct (i f : Nat) (pr q : Int) : Product :=
  { id := i, name := "Tomatoes", category := "vegetables", price := pr,
    description := some "fresh", quantity := q, unit := some "kg",
    farmer_id := f, images := [], status := "active" }

/-- An empty store with a given fresh-id counter. -/
def emptyDB (n : Nat) : DB :=
  { users := [], products := [], carts := [], cart_items := [],
    orders := [], order_items := [], nextId := n }

/-- Store for the C8 witness: farmer 2 owns product 10. -/
def dbC8 : DB := { emptyDB 50 with products := [sampleProduct 10 2 5 7] }

/-- A nonempty product patch for the C8 witness. -/
def patchC8 : ProductPatch :=
  { name := some "Potatoes", category := none, price := none,
    description := none, quantity := none, unit := none, images := none,
    status := none }

/-- Store for the C9 witness: 25 products that all match the empty filter. -/
def dbC9 : DB :=
  { emptyDB 100 with
    products := (List.range 25).map (fun i => sampleProduct (i + 10) 2 5 7) }

/-- Store for the C7 witness: user 1 owns the empty cart 100. -/
def dbC7 : DB :=
  { emptyDB 200 with carts := [{ id := 100, user_id := 1, total := 0 }] }

/-- A sample checkout body. -/
def cdW : CheckoutData :=
  { delivery_address := "1 Farm Road", delivery_notes := none,
    phone_number := "0700000000" }

/-- A buyer row with a stored password digest. -/
def buyerC4 : User :=
  { id := 1, username := "bob", email := "bob@example.com",
    password_hash := some "2c26b46b68ffc68ff99b453c1d304134",
    first_name := some "Bob", last_name := none, farm_name := none,
    location := none, user_type := "buyer", phone := none, address := none,
    profile_image_url := none }

/-- A user row for the C5 witness, with the digest the abstract hash
`fun s => s` produces for password "pw", salt "SALT", secret "KEY". -/
def aliceC5 : User :=
  { id := 7, username := "alice", email := "a@x",
    password_hash := some "pwSALTKEY", first_name := none, last_name := none,
    farm_name := none, location := none, user_type := "buyer", phone := none,
    address := none, profile_image_url := none }

/-- Store for the C5 witness. -/
def dbC5 : DB := { emptyDB 500 with users := [aliceC5] }

/-- The login response for the C5 witness's successful login. -/
def resC5 : LoginOk :=
  { user := stripHash aliceC5, full_name := "alice",
    token := { sub := 7, email := "a@x", user_type := "buyer" } }

/-- Store for the C6/C10 witnesses: user 1's cart 100 holds product 10
(current price 7) as one line snapshotted at price 5. -/
def dbC6 : DB :=
  { emptyDB 600 with
    products := [sampleProduct 10 2 7 50],
    carts := [{ id := 100, user_id := 1, total := 5 }],
    cart_items := [{ id := 200, cart_id := 100, product_id := 10,
                     quantity := 1, price := 5 }] }

/-- The store after `add_to_cart dbC6 1 10 3`. -/
def dbC6add : DB :=
  { dbC6 with
    carts := [{ id := 100, user_id := 1, total := 21 }],
    cart_items := [{ id := 600, cart_id := 100, product_id := 10,
                     quantity := 3, price := 7 }],
    nextId := 601 }

/-- The store after `remove_from_cart dbC6 1 10` (and after `clear_cart`). -/
def dbC6rm : DB :=
  { dbC6 with
    carts := [{ id := 100, user_id := 1, total := 0 }],
    cart_items := [] }

/-- Store for the C4 failing input: buyer 1 (digest stored) has one order
from farmer 3. -/
def dbC4 : DB :=
  { emptyDB 400 with
    users := [buyerC4],
    orders := [{ id := 20, buyer_id := 1, farmer_id := 3, total_amount := 5,
                 status := "pending", shipping_address := none,
                 delivery_address := some "1 Farm Road",
                 delivery_notes := none, phone_number := some "0700000000",
                 payment_info := none, created_at := 20 }] }

/-- Store for the C1/C3 checkout witnesses: user 1's cart 100 holds one
line from farmer 2's product 10 and one from farmer 3's product 11. -/
def dbW : DB :=
  { emptyDB 300 with
    products := [sampleProduct 10 2 5 7, sampleProduct 11 3 7 9],
    carts := [{ id := 100, user_id := 1, total := 19 }],
    cart_items := [{ id := 200, cart_id := 100, product_id := 10,
                     quantity := 1, price := 5 },
                   { id := 201, cart_id := 100, product_id := 11,
                     quantity := 2, price := 7 }] }

/-- Store for the C2 counterexample: product 10's current price is 10, but
the cart line was snapshotted at price 5 before the price change. -/
def dbC2 : DB :=
  { emptyDB 350 with
    products := [sampleProduct 10 2 10 7],
    carts := [{ id := 100, user_id := 1, total := 10 }],
    cart_items := [{ id := 210, cart_id := 100, product_id := 10,
                     quantity := 2, price := 5 }] }

/-- Store for the C3 negative-inventory instance: product 10 has only 1 in
stock. -/
def dbNeg : DB :=
  { emptyDB 700 with products := [sampleProduct 10 2 5 1] }

/-- Direct order request for the C3 negative-inventory instance: 5 units of
product 10 — more than the stock of 1; the service does not check. -/
def reqNeg : OrderCreateReq :=
  { farmer_id := 2, total_amount := 25, shipping_address := none,
    delivery_address := none, delivery_notes := none, phone_number := none,
    payment_info := none, items := [{ product_id := 10, quantity := 5, price := 5 }] }

-- ================== HELPER LEMMAS ==================

/-- Filtering a mapped list by a predicate the map preserves. -/
theorem filter_map_pres {α : Type} (f : α → α) (p : α → Bool)
    (h : ∀ a, p (f a) = p a) :
    ∀ l : List α, (l.map f).filter p = (l.filter p).map f := by
  intro l
  induction l with
  | nil => rfl
  | cons a t ih =>
    simp only [List.map_cons, List.filter_cons, h a]
    cases hp : p a <;> simp [ih]

/-- `setCartTotal` does not touch the line items. -/
theorem setCartTotal_cart_items (db : DB) (cid : Nat) (t : Int) :
    (setCartTotal db cid t).cart_items = db.cart_items := rfl

/-- `cartLineSum` only reads the line items, so writing a total keeps it. -/
theorem cartLineSum_setCartTotal (db : DB) (cid : Nat) (t : Int) (y : Nat) :
    cartLineSum (setCartTotal db cid t) y = cartLineSum db y := rfl

/-- The carts table after a total write. -/
theorem setCartTotal_carts (db : DB) (cid : Nat) (t : Int) :
    (setCartTotal db cid t).carts =
      db.carts.map (fun c => if c.id == cid then { c with total := t } else c) := rfl

/-- Writing a cart total preserves each cart's owner. -/
theorem total_write_pres_user (userId cid : Nat) (t : Int) :
    ∀ a : Cart,
      (((fun c => if c.id == cid then { c with total := t } else c) a).user_id
        == userId) = (a.user_id == userId) := by
  intro a
  by_cases h : (a.id == cid) = true <;> simp [h]

/-- Membership in the first-occurrence dedup is membership in the list. -/
theorem dedupF_mem (a : Nat) : ∀ l : List Nat, a ∈ dedupF l ↔ a ∈ l := by
  intro l
  induction l with
  | nil => simp [dedupF]
  | cons x xs ih =>
    simp only [dedupF, List.mem_cons, List.mem_filter, ih, Bool.not_eq_eq_eq_not,
      Bool.not_true, beq_eq_false_iff_ne, ne_eq]
    by_cases hax : a = x
    · simp [hax]
    · simp [hax]

/-- The first-occurrence dedup has no duplicates. -/
theorem dedupF_nodup : ∀ l : List Nat, (dedupF l).Nodup := by
  intro l
  induction l with
  | nil => simp [dedupF]
  | cons x xs ih =>
    refine List.Nodup.cons ?_ (List.Nodup.filter _ ih)
    simp [List.mem_filter]

/-- The cons equation of `dedupF`. -/
theorem dedupF_cons (x : Nat) (l : List Nat) :
    dedupF (x :: l) = x :: (dedupF l).filter (fun y => !(y == x)) := rfl

/-- Appending one key to the dedup: kept only when new. -/
theorem dedupF_snoc (a : Nat) : ∀ l : List Nat,
    dedupF (l ++ [a]) = if a ∈ l then dedupF l else dedupF l ++ [a] := by
  intro l
  induction l with
  | nil => simp [dedupF]
  | cons x xs ih =>
    by_cases hax : a ∈ xs
    · have h1 : a ∈ x :: xs := List.mem_cons.mpr (Or.inr hax)
      rw [if_pos h1, List.cons_append, dedupF_cons, ih, if_pos hax, dedupF_cons]
    · by_cases hax2 : a = x
      · have h1 : a ∈ x :: xs := List.mem_cons.mpr (Or.inl hax2)
        rw [if_pos h1, List.cons_append, dedupF_cons, ih, if_neg hax,
          dedupF_cons, List.filter_append]
        simp [hax2]
      · have h1 : a ∉ x :: xs := by simp [hax, hax2]
        rw [if_neg h1, List.cons_append, dedupF_cons, ih, if_neg hax,
          dedupF_cons, List.filter_append]
        simp [hax2]

/-- Effect of one more joined line on a farmer's intended group. -/
theorem groupFor_append_single (l : List (CartItem × Product))
    (x : CartItem × Product) (f : Nat) :
    groupFor (l ++ [x]) f =
      if f = x.2.farmer_id then extendGroup (groupFor l f) (mkSpec x)
      else groupFor l f := by
  unfold groupFor extendGroup
  by_cases hf : f = x.2.farmer_id
  · rw [if_pos hf]
    simp [List.filter_append, List.filter_cons, hf, mkSpec]
  · rw [if_neg hf]
    have : (x.2.farmer_id == f) = false := by
      simp
      exact fun he => hf he.symm
    simp [List.filter_append, List.filter_cons, this]

/-- A farmer absent from the joined lines has the empty intended group. -/
theorem groupFor_not_mem (l : List (CartItem × Product)) (f : Nat)
    (h : f ∉ l.map (fun ip => ip.2.farmer_id)) :
    groupFor l f = { items := [], total_amount := 0 } := by
  unfold groupFor
  have hnil : l.filter (fun ip => ip.2.farmer_id == f) = [] := by
    rw [List.filter_eq_nil_iff]
    intro ip hip
    simp only [beq_iff_eq]
    exact fun he => h (List.mem_map.mpr ⟨ip, hip, he⟩)
  rw [hnil]
  rfl

/-- Inserting a line for a farmer with no group yet appends a fresh group. -/
theorem addToGroups_not_mem (fid : Nat) (it : OSpec) :
    ∀ gs : List (Nat × FarmerGroup), fid ∉ gs.map Prod.fst →
      addToGroups gs fid it =
        gs ++ [(fid, extendGroup { items := [], total_amount := 0 } it)] := by
  intro gs
  induction gs with
  | nil => intro _; rfl
  | cons hd tl ih =>
    intro h
    obtain ⟨f, g⟩ := hd
    simp only [List.map_cons, List.mem_cons, not_or] at h
    unfold addToGroups
    rw [if_neg (fun he => h.1 he.symm)]
    rw [List.cons_append, ih h.2]

/-- Inserting a line for a farmer that already has a group (over distinct
keys) extends exactly that group in place. -/
theorem addToGroups_mem_map (fid : Nat) (it : OSpec) (G : Nat → FarmerGroup) :
    ∀ ks : List Nat, ks.Nodup → fid ∈ ks →
      addToGroups (ks.map (fun f => (f, G f))) fid it =
        ks.map (fun f => (f, if f = fid then extendGroup (G f) it else G f)) := by
  intro ks
  induction ks with
  | nil => intro _ hmem; simp at hmem
  | cons k ks ih =>
    intro hnd hmem
    simp only [List.map_cons]
    unfold addToGroups
    by_cases hk : k = fid
    · rw [if_pos hk]
      have hfs : fid ∉ ks := by
        rw [← hk]
        exact (List.nodup_cons.mp hnd).1
      have hrest : ks.map (fun f => (f, if f = fid then extendGroup (G f) it else G f)) =
          ks.map (fun f => (f, G f)) := by
        apply List.map_congr_left
        intro a ha
        rw [if_neg (by rintro rfl; exact hfs ha)]
      rw [hrest, if_pos hk]
    · rw [if_neg hk]
      have hmem' : fid ∈ ks := by
        rcases List.mem_cons.mp hmem with h | h
        · exact absurd h.symm hk
        · exact h
      rw [ih (List.nodup_cons.mp hnd).2 hmem', if_neg hk]

/-- The keys of the reference partition are the deduped farmer ids. -/
theorem groupsSpec_keys (joined : List (CartItem × Product)) :
    (groupsSpec joined).map Prod.fst =
      dedupF (joined.map (fun ip => ip.2.farmer_id)) := by
  unfold groupsSpec
  rw [List.map_map]
  exact List.map_id' _

/-- One grouping step matches the reference partition of one more line. -/
theorem groupsSpec_snoc (l : List (CartItem × Product)) (x : CartItem × Product) :
    addToGroups (groupsSpec l) x.2.farmer_id (mkSpec x) = groupsSpec (l ++ [x]) := by
  by_cases hmem : x.2.farmer_id ∈ l.map (fun ip => ip.2.farmer_id)
  · unfold groupsSpec
    rw [List.map_append]
    simp only [List.map_cons, List.map_nil]
    rw [dedupF_snoc, if_pos hmem,
      addToGroups_mem_map _ _ _ _ (dedupF_nodup _) ((dedupF_mem _ _).mpr hmem)]
    apply List.map_congr_left
    intro f hf
    rw [groupFor_append_single]
  · have hkeys : x.2.farmer_id ∉ (groupsSpec l).map Prod.fst := by
      rw [groupsSpec_keys]
      exact fun hc => hmem ((dedupF_mem _ _).mp hc)
    rw [addToGroups_not_mem _ _ _ hkeys]
    unfold groupsSpec
    rw [List.map_append]
    simp only [List.map_cons, List.map_nil]
    rw [dedupF_snoc, if_neg hmem, List.map_append]
    congr 1
    · apply List.map_congr_left
      intro f hf
      rw [groupFor_append_single, if_neg]
      intro he
      exact hmem (he ▸ (dedupF_mem f _).mp hf)
    · simp only [List.map_cons, List.map_nil, List.cons.injEq, Prod.mk.injEq,
        true_and, and_true]
      rw [groupFor_append_single, if_pos rfl, groupFor_not_mem _ _ hmem]

/-- The checkout grouping loop computes the reference partition. -/
theorem buildGroups_eq_groupsSpec (joined : List (CartItem × Product)) :
    buildGroups joined = groupsSpec joined := by
  have hgen : ∀ (rest processed : List (CartItem × Product)),
      rest.foldl (fun gs ip => addToGroups gs ip.2.farmer_id (mkSpec ip))
        (groupsSpec processed) = groupsSpec (processed ++ rest) := by
    intro rest
    induction rest with
    | nil => intro processed; simp
    | cons x rest ih =>
      intro processed
      simp only [List.foldl_cons]
      rw [groupsSpec_snoc, ih (processed ++ [x]), List.append_assoc,
        List.singleton_append]
  have h := hgen joined []
  simpa [buildGroups, groupsSpec, dedupF] using h

/-- Sequential decrements over concatenated spec lists compose. -/
theorem decFold_append (a b : List OSpec) (prods : List Product) :
    decFold (a ++ b) prods = decFold b (decFold a prods) := by
  simp [decFold, List.foldl_append]

/-- The conditional bulk insert of order items (`if order_items:`) always
amounts to appending the produced items (vacuous for the empty list). -/
theorem appendItems_eq (db3 : DB) (its : List OrderItem) :
    (if its.isEmpty = true then db3
     else { db3 with order_items := db3.order_items ++ its }) =
    { db3 with order_items := db3.order_items ++ its } := by
  by_cases hemp : its.isEmpty = true
  · rw [if_pos hemp, List.isEmpty_iff.mp hemp]
    simp
  · rw [if_neg hemp]

/-- What a successful run of the shared per-item loop does: it returns the
accumulated items extended by one fresh item per spec (same product,
quantity and price, all tagged with the given order id), applies exactly
the sequential inventory decrements to the products table, and touches no
other table. -/
theorem processSpecs_ok (oid : Nat) :
    ∀ (specs : List OSpec) (db : DB) (acc : List OrderItem) (db' : DB)
      (its : List OrderItem),
      processSpecs oid db acc specs = (db', .ok its) →
      ∃ new : List OrderItem,
        its = acc ++ new ∧
        new.map (fun it => (it.product_id, it.quantity, it.price)) =
          specs.map (fun s => (s.product_id, s.quantity, s.price)) ∧
        (∀ it ∈ new, it.order_id = oid) ∧
        db'.products = decFold specs db.products ∧
        db'.orders = db.orders ∧ db'.order_items = db.order_items ∧
        db'.carts = db.carts ∧ db'.cart_items = db.cart_items ∧
        db'.users = db.users ∧ db.nextId ≤ db'.nextId := by
  intro specs
  induction specs with
  | nil =>
    intro db acc db' its h
    simp only [processSpecs] at h
    have hdb := congrArg Prod.fst h
    have hits := congrArg Prod.snd h
    simp only at hdb
    simp only [Except.ok.injEq] at hits
    refine ⟨[], by simp [← hits], by simp, by simp, ?_, ?_, ?_, ?_, ?_, ?_, ?_⟩ <;>
      simp [← hdb, decFold]
  | cons sp rest ih =>
    intro db acc db' its h
    simp only [processSpecs] at h
    dsimp only [freshId] at h
    cases hfind : (db.products.filter (fun p => p.id == sp.product_id)).head? with
    | none =>
      rw [hfind] at h
      simp at h
    | some p =>
      rw [hfind] at h
      obtain ⟨new, hits, hmap, hoid, hprod, horders, hoi, hcarts, hci, husers,
        hnext⟩ := ih _ _ _ _ h
      refine ⟨(⟨db.nextId, oid, sp.product_id, sp.quantity, sp.price⟩ : OrderItem) :: new,
        ?_, ?_, ?_, ?_, ?_, ?_, ?_, ?_, ?_, ?_⟩
      · simp [hits]
      · simp only [List.map_cons, hmap]
      · intro it hit
        rcases List.mem_cons.mp hit with hh | hh
        · rw [hh]
        · exact hoid it hh
      · rw [hprod]
        rfl
      · rw [horders]
      · rw [hoi]
      · rw [hcarts]
      · rw [hci]
      · rw [husers]
      · exact le_trans (Nat.le_succ _) hnext

/-- What a successful run of the per-farmer order-creation loop does:
one block (inserted order row plus its inserted order items) per group, in
group order, appended to the orders and order-items tables; the returned
list is the accumulator followed by the new orders; products undergo
exactly the concatenated sequential decrements; carts, cart items and users
are untouched; every new order is pending, belongs to the acting buyer,
carries a fresh id (ids strictly increasing across blocks), and its items
are tagged with it; and block `i` matches group `i` in farmer, total and
item triples. -/
theorem createOrdersLoop_ok (buyerId : Nat) (cd : CheckoutData) :
    ∀ (groups : List (Nat × FarmerGroup)) (db : DB) (acc : List Order)
      (db' : DB) (res : List Order),
      createOrdersLoop buyerId cd db acc groups = (db', .ok res) →
      ∃ blocks : List (Order × List OrderItem),
        res = acc ++ blocks.map Prod.fst ∧
        db'.orders = db.orders ++ blocks.map Prod.fst ∧
        db'.order_items = db.order_items ++ (blocks.map Prod.snd).flatten ∧
        db'.carts = db.carts ∧ db'.cart_items = db.cart_items ∧
        db'.users = db.users ∧
        db'.products =
          decFold ((groups.map (fun g => g.2.items)).flatten) db.products ∧
        db.nextId ≤ db'.nextId ∧
        blocks.length = groups.length ∧
        (∀ b ∈ blocks, b.1.status = "pending" ∧ b.1.buyer_id = buyerId ∧
          db.nextId ≤ b.1.id ∧ b.1.id < db'.nextId ∧
          (∀ it ∈ b.2, it.order_id = b.1.id)) ∧
        (blocks.map (fun b => b.1.id)).Pairwise (· < ·) ∧
        (∀ p ∈ blocks.zip groups,
          p.1.1.farmer_id = p.2.1 ∧
          p.1.1.total_amount = p.2.2.total_amount ∧
          p.1.2.map (fun it => (it.product_id, it.quantity, it.price)) =
            p.2.2.items.map (fun s => (s.product_id, s.quantity, s.price))) := by
  intro groups
  induction groups with
  | nil =>
    intro db acc db' res h
    simp only [createOrdersLoop] at h
    have hdb := congrArg Prod.fst h
    have hres := congrArg Prod.snd h
    simp only at hdb
    simp only [Except.ok.injEq] at hres
    refine ⟨[], by simp [← hres], ?_, ?_, ?_, ?_, ?_, ?_, ?_, by simp,
      by simp, by simp, by simp⟩ <;> simp [← hdb, decFold]
  | cons hd rest ih =>
    intro db acc db' res h
    obtain ⟨fid, g⟩ := hd
    simp only [createOrdersLoop] at h
    dsimp only [freshId] at h
    split at h
    · simp at h
    · rename_i db3 its heq
      rw [appendItems_eq] at h
      obtain ⟨new, hits, hmap, hoid, hprod, horders, hoi, hcarts, hci,
        husers, hnext⟩ := processSpecs_ok _ _ _ _ _ _ heq
      simp only [List.nil_append] at hits
      subst hits
      obtain ⟨blocks, hres, hord, hoitems, hcarts2, hci2, husers2, hprods2,
        hnext2, hlen, hblocks, hpair, hzip⟩ := ih _ _ _ _ h
      dsimp only at *
      refine ⟨(⟨db.nextId, buyerId, fid, g.total_amount, "pending", none,
          some cd.delivery_address, cd.delivery_notes, some cd.phone_number,
          none, db.nextId⟩, its) :: blocks,
        ?_, ?_, ?_, ?_, ?_, ?_, ?_, ?_, ?_, ?_, ?_, ?_⟩
      · simp [hres]
      · rw [hord, horders]
        simp
      · rw [hoitems, hoi]
        simp
      · rw [hcarts2, hcarts]
      · rw [hci2, hci]
      · rw [husers2, husers]
      · rw [hprods2, hprod]
        simp [decFold_append]
      · omega
      · simp [hlen]
      · intro b hb
        rcases List.mem_cons.mp hb with hb | hb
        · subst hb
          refine ⟨rfl, rfl, le_refl _, ?_, ?_⟩
          · show db.nextId < db'.nextId
            omega
          · intro it hit
            exact hoid it hit
        · obtain ⟨hst, hbuy, hid1, hid2, htag⟩ := hblocks b hb
          exact ⟨hst, hbuy, by omega, hid2, htag⟩
      · simp only [List.map_cons]
        rw [List.pairwise_cons]
        constructor
        · intro idv hidv
          obtain ⟨b, hbmem, hbid⟩ := List.mem_map.mp hidv
          have hge := (hblocks b hbmem).2.2.1
          omega
        · exact hpair
      · intro pz hpz
        simp only [List.zip_cons_cons] at hpz
        rcases List.mem_cons.mp hpz with hpz | hpz
        · subst hpz
          exact ⟨rfl, rfl, hmap⟩
        · exact hzip pz hpz

/-- With distinct order ids and correctly tagged items, filtering the
concatenation of the inserted item blocks by one order's id returns exactly
that order's block. -/
theorem flatten_filter_blocks :
    ∀ (blocks : List (Order × List OrderItem)) (o : Order),
      (∀ b ∈ blocks, ∀ it ∈ b.2, it.order_id = b.1.id) →
      (blocks.map (fun b => b.1.id)).Nodup →
      ∀ b ∈ blocks, b.1 = o →
        ((blocks.map Prod.snd).flatten).filter
          (fun it => it.order_id == o.id) = b.2 := by
  intro blocks
  induction blocks with
  | nil =>
    intro o _ _ b hb
    simp at hb
  | cons hd tl ih =>
    intro o htag hnd b hb hbo
    simp only [List.map_cons, List.flatten_cons, List.filter_append]
    rcases List.mem_cons.mp hb with hh | hh
    · subst hh
      have h1 : b.2.filter (fun it => it.order_id == o.id) = b.2 := by
        rw [List.filter_eq_self]
        intro it hit
        have ht := htag b (List.mem_cons_self _ _) it hit
        simp [ht, hbo]
      have h2 : ((tl.map Prod.snd).flatten).filter
          (fun it => it.order_id == o.id) = [] := by
        rw [List.filter_eq_nil_iff]
        intro it hit
        obtain ⟨l, hl, hitl⟩ := List.mem_flatten.mp hit
        obtain ⟨b', hb', hbl⟩ := List.mem_map.mp hl
        have ht := htag b' (List.mem_cons_of_mem _ hb') it (by rw [hbl]; exact hitl)
        have hne : b'.1.id ≠ o.id := by
          rw [← hbo]
          intro he
          exact (List.nodup_cons.mp hnd).1
            (List.mem_map.mpr ⟨b', hb', he⟩)
        simp [ht, hne]
      rw [h1, h2, List.append_nil]
    · have hne : hd.1.id ≠ o.id := by
        rw [← hbo]
        intro he
        have hmm : b.1.id ∈ tl.map (fun b => b.1.id) :=
          List.mem_map.mpr ⟨b, hh, rfl⟩
        rw [← he] at hmm
        exact (List.nodup_cons.mp hnd).1 hmm
      have h1 : hd.2.filter (fun it => it.order_id == o.id) = [] := by
        rw [List.filter_eq_nil_iff]
        intro it hit
        have ht := htag hd (List.mem_cons_self _ _) it hit
        simp [ht, hne]
      rw [h1, List.nil_append]
      exact ih o (fun b' hb' => htag b' (List.mem_cons_of_mem _ hb'))
        (List.nodup_cons.mp hnd).2 b hh hbo

/-- Mapping two same-length lists through functions that agree on the zip. -/
theorem map_eq_of_zip {α β γ : Type} (f : α → γ) (g : β → γ) :
    ∀ (l1 : List α) (l2 : List β), l1.length = l2.length →
      (∀ p ∈ l1.zip l2, f p.1 = g p.2) → l1.map f = l2.map g := by
  intro l1
  induction l1 with
  | nil =>
    intro l2 hlen _
    cases l2 with
    | nil => rfl
    | cons b t => simp at hlen
  | cons a t ih =>
    intro l2 hlen hp
    cases l2 with
    | nil => simp at hlen
    | cons b t2 =>
      simp only [List.map_cons, List.cons.injEq]
      constructor
      · exact hp (a, b) (by simp [List.zip_cons_cons])
      · exact ih t2 (by simpa using hlen)
          (fun p hP => hp p (by simp [List.zip_cons_cons, hP]))

/-- An element of the left list of a same-length zip has a partner. -/
theorem mem_zip_of_mem_left {α β : Type} :
    ∀ (l1 : List α) (l2 : List β), l1.length = l2.length →
      ∀ b ∈ l1, ∃ g, (b, g) ∈ l1.zip l2 ∧ g ∈ l2 := by
  intro l1
  induction l1 with
  | nil =>
    intro l2 _ b hb
    simp at hb
  | cons a t ih =>
    intro l2 hlen b hb
    cases l2 with
    | nil => simp at hlen
    | cons c t2 =>
      rcases List.mem_cons.mp hb with hh | hh
      · exact ⟨c, by simp [List.zip_cons_cons, hh], by simp⟩
      · obtain ⟨g, hg1, hg2⟩ := ih t2 (by simpa using hlen) b hh
        refine ⟨g, ?_, List.mem_cons_of_mem _ hg2⟩
        simp only [List.zip_cons_cons, List.mem_cons]
        exact Or.inr hg1

/-- A successful product join of a nonempty item list is nonempty. -/
theorem joinProducts_ne_nil (db : DB) (items : List CartItem)
    (joined : List (CartItem × Product))
    (h : joinProducts db items = some joined) (hne : items ≠ []) :
    joined ≠ [] := by
  cases items with
  | nil => exact absurd rfl hne
  | cons it rest =>
    intro hj
    subst hj
    simp only [joinProducts, List.mapM_cons] at h
    cases hx : (db.products.filter (fun p => p.id == it.product_id)).head? with
    | none => rw [hx] at h; simp at h
    | some p =>
      rw [hx] at h
      simp only [Option.map_some', Option.some_bind] at h
      cases hrest : rest.mapM (fun it =>
          ((db.products.filter (fun p => p.id == it.product_id)).head?).map
            (fun p => (it, p))) with
      | none => rw [hrest] at h; simp at h
      | some tl => rw [hrest] at h; simp at h

-- ================== THEOREMS ==================

/-- C8: for a farmer who does not own a given product (in particular when no
product with that id exists at all), both the update and the delete endpoint
return the identical 404 not-found error and leave the store unchanged —
indistinguishable from a nonexistent product, never a 403. -/
theorem c8_nonowner_gets_not_found (db : DB) (actorId productId : Nat)
    (patch : ProductPatch)
    (h : ∀ p ∈ db.products, p.id = productId → p.farmer_id ≠ actorId) :
    update_product db actorId productId patch =
      (db, .error (.notFound "Product not found or unauthorized")) ∧
    delete_product db actorId productId =
      (db, .error (.notFound "Product not found or unauthorized")) := by
  have hf : db.products.filter
      (fun p => p.id == productId && p.farmer_id == actorId) = [] := by
    rw [List.filter_eq_nil_iff]
    intro p hp
    simp only [Bool.and_eq_true, beq_iff_eq, not_and]
    exact fun h1 h2 => h p hp h1 h2
  constructor
  · unfold update_product
    rw [hf]
    rfl
  · unfold delete_product
    rw [hf]
    rfl

/-- C8 witness: a concrete store where farmer 2 owns product 10; farmer 3's
update and delete attempts on product 10, and anyone's attempt on the absent
product 99, all yield the same 404. -/
theorem c8_nonowner_gets_not_found_witness :
    (update_product dbC8 3 10 patchC8 =
      (dbC8, .error (.notFound "Product not found or unauthorized")) ∧
     delete_product dbC8 3 10 =
      (dbC8, .error (.notFound "Product not found or unauthorized"))) ∧
    (update_product dbC8 3 99 patchC8 =
      (dbC8, .error (.notFound "Product not found or unauthorized")) ∧
     delete_product dbC8 3 99 =
      (dbC8, .error (.notFound "Product not found or unauthorized"))) :=
  ⟨c8_nonowner_gets_not_found dbC8 3 10 patchC8 (by decide),
   c8_nonowner_gets_not_found dbC8 3 99 patchC8 (by decide)⟩

/-- C9: with page ≥ 1 and 1 ≤ limit ≤ 100 the product listing returns the
filtered items at offsets (page−1)·limit … page·limit−1, reports the full
filtered count, and a page count equal to ⌈total/limit⌉ (characterized as
the least n with total ≤ n·limit, and computed as (total+limit−1)/limit);
in particular page 2 with limit 20 over 25 matching items yields 5 items
and 2 pages.  Out-of-range paging parameters are rejected up front. -/
theorem c9_pagination :
    (∀ (db : DB) (category : Option String) (farmerId : Option Nat)
       (search : Option String) (page limit : Nat),
      1 ≤ page → 1 ≤ limit → limit ≤ 100 →
      ∃ resp, get_products db category farmerId search page limit = .ok resp ∧
        resp.products =
          ((db.products.filter (productMatches category farmerId search)).drop
            ((page - 1) * limit)).take limit ∧
        resp.total =
          (db.products.filter (productMatches category farmerId search)).length ∧
        resp.pages = (resp.total + limit - 1) / limit ∧
        resp.total ≤ limit * resp.pages ∧
        limit * resp.pages < resp.total + limit ∧
        (resp.total = 25 → page = 2 → limit = 20 →
          resp.products.length = 5 ∧ resp.pages = 2)) ∧
    (∀ (db : DB) (category : Option String) (farmerId : Option Nat)
       (search : Option String) (page limit : Nat),
      page < 1 ∨ limit < 1 ∨ 100 < limit →
      get_products db category farmerId search page limit =
        .error (.validation "query parameter out of range")) := by
  constructor
  · intro db category farmerId search page limit hp hl hl100
    refine ⟨⟨((db.products.filter (productMatches category farmerId search)).drop
          ((page - 1) * limit)).take limit, page, limit,
        (db.products.filter (productMatches category farmerId search)).length,
        ((db.products.filter (productMatches category farmerId search)).length
          + limit - 1) / limit⟩,
      ?_, rfl, rfl, rfl, ?_, ?_, ?_⟩
    · unfold get_products
      rw [if_neg]
      simp only [Bool.or_eq_true, decide_eq_true_eq, not_or, not_lt]
      omega
    · dsimp only
      have hd := Nat.div_add_mod
        ((db.products.filter (productMatches category farmerId search)).length
          + limit - 1) limit
      have hm := Nat.mod_lt
        ((db.products.filter (productMatches category farmerId search)).length
          + limit - 1) (show 0 < limit by omega)
      omega
    · dsimp only
      have hd := Nat.div_add_mod
        ((db.products.filter (productMatches category farmerId search)).length
          + limit - 1) limit
      have hm := Nat.mod_lt
        ((db.products.filter (productMatches category farmerId search)).length
          + limit - 1) (show 0 < limit by omega)
      omega
    · intro h25 hpage hlim
      subst hpage hlim
      dsimp only at h25 ⊢
      constructor
      · simp only [List.length_take, List.length_drop]
        omega
      · omega
  · intro db category farmerId search page limit h
    unfold get_products
    rw [if_pos]
    simp only [Bool.or_eq_true, decide_eq_true_eq]
    omega

/-- C9 witness: applying the pagination theorem at a concrete store of 25
matching products, page 2, limit 20, and the rejection branch at limit 0. -/
theorem c9_pagination_witness :
    (∃ resp, get_products dbC9 none none none 2 20 = .ok resp ∧
      resp.products =
        ((dbC9.products.filter (productMatches none none none)).drop 20).take 20 ∧
      resp.total = (dbC9.products.filter (productMatches none none none)).length ∧
      resp.pages = (resp.total + 20 - 1) / 20 ∧
      resp.total ≤ 20 * resp.pages ∧
      20 * resp.pages < resp.total + 20 ∧
      (resp.total = 25 → 2 = 2 → 20 = 20 →
        resp.products.length = 5 ∧ resp.pages = 2)) ∧
    get_products dbC9 none none none 1 0 =
      .error (.validation "query parameter out of range") :=
  ⟨c9_pagination.1 dbC9 none none none 2 20 (by decide) (by decide) (by decide),
   c9_pagination.2 dbC9 none none none 1 0 (by decide)⟩

/-- C7: checkout fails with the 404 cart-not-found error when no cart has
the given id and owner, and with the 400 empty-cart error when the cart
exists but has no line items; in both cases the returned store is the input
store — no order is created and no product or cart state changes. -/
theorem c7_checkout_failure_paths (db : DB) (userId cartId : Nat)
    (cd : CheckoutData) :
    ((db.carts.filter (fun c => c.id == cartId && c.user_id == userId)).head? = none →
      checkout_order db userId cartId cd = (db, .error (.notFound "Cart not found"))) ∧
    (∀ c, (db.carts.filter (fun c => c.id == cartId && c.user_id == userId)).head? = some c →
      cartItemsOf db cartId = [] →
      checkout_order db userId cartId cd = (db, .error (.badRequest "Cart is empty"))) := by
  constructor
  · intro h
    unfold checkout_order
    rw [h]
  · intro c h hemp
    unfold checkout_order
    rw [h]
    simp only [hemp, List.isEmpty_nil, if_true]

/-- C7 witness: a store where cart 100 belongs to user 1 and is empty, and
cart 555 does not exist: checkout of 555 is a 404 and checkout of 100 is
the empty-cart 400, both leaving the store untouched. -/
theorem c7_checkout_failure_paths_witness :
    checkout_order dbC7 1 555 cdW = (dbC7, .error (.notFound "Cart not found")) ∧
    checkout_order dbC7 1 100 cdW = (dbC7, .error (.badRequest "Cart is empty")) :=
  ⟨(c7_checkout_failure_paths dbC7 1 555 cdW).1 (by decide),
   (c7_checkout_failure_paths dbC7 1 100 cdW).2
     { id := 100, user_id := 1, total := 0 } (by decide) (by decide)⟩

/-- C4 (refuted — code bug): the order listing endpoint serializes the
buyer's stored user row verbatim (`users!orders_buyer_id_fkey(*)`), so a
buyer's own `GET /api/orders` response carries the buyer's password digest:
evaluated at the concrete store `dbC4`, the response exposes the stored
hash, contradicting the never-serialized invariant the other user-returning
endpoints enforce by deleting the field. -/
theorem c4_get_orders_serializes_password_hash :
    (get_orders dbC4 buyerC4 none 1 20).toOption.map exposesHash = some true ∧
    (∃ resp, get_orders dbC4 buyerC4 none 1 20 = .ok resp ∧
      resp.orders.map (fun row => row.buyer.map (fun u => u.password_hash)) =
        [some (some "2c26b46b68ffc68ff99b453c1d304134")]) := by
  constructor
  · decide
  · exact ⟨_, rfl, by decide⟩

/-- C1: a successful checkout of a cart owned by the acting user with at
least one line creates exactly one pending order per distinct owning farmer
id among the cart's joined products, each order's persisted order items are
exactly the (product id, quantity) pairs of that farmer's cart lines, the
new orders are appended to the orders table and all of them returned, every
line of the cart is deleted, and the cart total is reset to 0. -/
theorem c1_checkout_per_farmer_orders (db : DB) (userId cartId : Nat)
    (cd : CheckoutData) (db' : DB) (orders : List Order)
    (hwf : dbWF db)
    (h : checkout_order db userId cartId cd = (db', .ok orders)) :
    ∃ joined, joinProducts db (cartItemsOf db cartId) = some joined ∧
      joined ≠ [] ∧
      (orders.map (fun o => o.farmer_id)).Nodup ∧
      (∀ f, f ∈ orders.map (fun o => o.farmer_id) ↔
        f ∈ joined.map (fun ip => ip.2.farmer_id)) ∧
      (∀ o ∈ orders, o.status = "pending" ∧ o.buyer_id = userId ∧
        (db'.order_items.filter (fun it => it.order_id == o.id)).map
            (fun it => (it.product_id, it.quantity)) =
          (joined.filter (fun ip => ip.2.farmer_id == o.farmer_id)).map
            (fun ip => (ip.2.id, ip.1.quantity))) ∧
      db'.orders = db.orders ++ orders ∧
      (∀ it ∈ db'.cart_items, it.cart_id ≠ cartId) ∧
      (∀ c ∈ db'.carts, c.id = cartId → c.total = 0) := by
  unfold checkout_order at h
  cases hcart : (db.carts.filter
      (fun c => c.id == cartId && c.user_id == userId)).head? with
  | none =>
    rw [hcart] at h
    simp at h
  | some cart =>
    rw [hcart] at h
    dsimp only at h
    by_cases hemp : (cartItemsOf db cartId).isEmpty = true
    · rw [if_pos hemp] at h
      simp at h
    · rw [if_neg hemp] at h
      split at h
      · simp at h
      · rename_i joined hjoin
        split at h
        · simp at h
        · rename_i db1 created hloop
          have hdb := congrArg Prod.fst h
          have hords0 := congrArg Prod.snd h
          simp only at hdb
          simp only [Except.ok.injEq] at hords0
          obtain ⟨blocks, hres, hords, hoitems, hcarts, hci, husers, hprods,
            hnext, hlen, hblocks, hpair, hzip⟩ :=
            createOrdersLoop_ok _ _ _ _ _ _ _ hloop
          rw [buildGroups_eq_groupsSpec] at hlen hzip
          simp only [List.nil_append] at hres
          have horders : orders = blocks.map Prod.fst := by
            rw [← hords0, hres]
          have hfarm : blocks.map (fun b => b.1.farmer_id) =
              (groupsSpec joined).map Prod.fst :=
            map_eq_of_zip _ _ _ _ hlen (fun p hp => (hzip p hp).1)
          have hfarm2 : orders.map (fun o => o.farmer_id) =
              dedupF (joined.map (fun ip => ip.2.farmer_id)) := by
            rw [horders, List.map_map, ← groupsSpec_keys]
            exact hfarm
          have hidsnd : (blocks.map (fun b => b.1.id)).Nodup :=
            hpair.imp (fun hlt => Nat.ne_of_lt hlt)
          refine ⟨joined, hjoin, ?_, ?_, ?_, ?_, ?_, ?_, ?_⟩
          · exact joinProducts_ne_nil db _ _ hjoin
              (fun hn => hemp (by rw [hn]; rfl))
          · rw [hfarm2]
            exact dedupF_nodup _
          · intro f
            rw [hfarm2, dedupF_mem]
          · intro o ho
            rw [horders] at ho
            obtain ⟨b, hbmem, hbo⟩ := List.mem_map.mp ho
            obtain ⟨hst, hbuy, hidlo, hidhi, htag0⟩ := hblocks b hbmem
            refine ⟨by rw [← hbo]; exact hst, by rw [← hbo]; exact hbuy, ?_⟩
            have hoi' : db'.order_items =
                db.order_items ++ (blocks.map Prod.snd).flatten := by
              rw [← hdb]
              exact hoitems
            rw [hoi', List.filter_append]
            have hold : db.order_items.filter
                (fun it => it.order_id == o.id) = [] := by
              rw [List.filter_eq_nil_iff]
              intro it hit
              have hlt := hwf.2 it hit
              simp only [beq_iff_eq]
              rw [← hbo]
              omega
            have hnewf := flatten_filter_blocks blocks o
              (fun b' hb' => (hblocks b' hb').2.2.2.2) hidsnd b hbmem hbo
            rw [hold, hnewf, List.nil_append]
            obtain ⟨gp, hzmem, hgmem⟩ := mem_zip_of_mem_left _ _ hlen b hbmem
            obtain ⟨hzf, hzt, hzi⟩ := hzip _ hzmem
            obtain ⟨f0, hf0mem, hf0⟩ := List.mem_map.mp hgmem
            have htrip := congrArg
              (List.map (fun t : Nat × Int × Int => (t.1, t.2.1))) hzi
            rw [List.map_map, List.map_map] at htrip
            have hitems : gp.2.items =
                (joined.filter (fun ip => ip.2.farmer_id == gp.1)).map mkSpec := by
              rw [← hf0]
              rfl
            have hfarmo : o.farmer_id = gp.1 := by
              rw [← hbo]
              exact hzf
            rw [hfarmo]
            rw [hitems] at htrip
            rw [List.map_map] at htrip
            exact htrip
          · rw [← hdb]
            show db1.orders = db.orders ++ orders
            rw [hords, horders]
          · intro it hit
            rw [← hdb, setCartTotal_cart_items] at hit
            dsimp only at hit
            have hb2 := (List.mem_filter.mp hit).2
            simp only [Bool.not_eq_eq_eq_not, Bool.not_true,
              beq_eq_false_iff_ne, ne_eq] at hb2
            exact hb2
          · intro c hc hcid
            rw [← hdb, setCartTotal_carts] at hc
            dsimp only at hc
            obtain ⟨c0, hc0, hfc0⟩ := List.mem_map.mp hc
            by_cases hck : (c0.id == cartId) = true
            · rw [if_pos hck] at hfc0
              rw [← hfc0]
            · rw [if_neg hck] at hfc0
              rw [← hfc0] at hcid
              exact absurd (by simp [hcid]) hck

/-- C2 as stated is false on the code; this is the amended claim: each
per-farmer order's `total_amount` is the sum over that farmer's cart lines
of the product's CURRENT price at checkout time × line quantity (not the
add-time snapshot), and each created order item carries that current
product price. -/
theorem c2_checkout_uses_current_price (db : DB) (userId cartId : Nat)
    (cd : CheckoutData) (db' : DB) (orders : List Order)
    (hwf : dbWF db)
    (h : checkout_order db userId cartId cd = (db', .ok orders)) :
    ∃ joined, joinProducts db (cartItemsOf db cartId) = some joined ∧
      ∀ o ∈ orders,
        o.total_amount =
          ((joined.filter (fun ip => ip.2.farmer_id == o.farmer_id)).map
            (fun ip => ip.2.price * ip.1.quantity)).sum ∧
        (db'.order_items.filter (fun it => it.order_id == o.id)).map
            (fun it => it.price) =
          (joined.filter (fun ip => ip.2.farmer_id == o.farmer_id)).map
            (fun ip => ip.2.price) := by
  unfold checkout_order at h
  cases hcart : (db.carts.filter
      (fun c => c.id == cartId && c.user_id == userId)).head? with
  | none =>
    rw [hcart] at h
    simp at h
  | some cart =>
    rw [hcart] at h
    dsimp only at h
    by_cases hemp : (cartItemsOf db cartId).isEmpty = true
    · rw [if_pos hemp] at h
      simp at h
    · rw [if_neg hemp] at h
      split at h
      · simp at h
      · rename_i joined hjoin
        split at h
        · simp at h
        · rename_i db1 created hloop
          have hdb := congrArg Prod.fst h
          have hords0 := congrArg Prod.snd h
          simp only at hdb
          simp only [Except.ok.injEq] at hords0
          obtain ⟨blocks, hres, hords, hoitems, hcarts, hci, husers, hprods,
            hnext, hlen, hblocks, hpair, hzip⟩ :=
            createOrdersLoop_ok _ _ _ _ _ _ _ hloop
          rw [buildGroups_eq_groupsSpec] at hlen hzip
          simp only [List.nil_append] at hres
          have horders : orders = blocks.map Prod.fst := by
            rw [← hords0, hres]
          have hidsnd : (blocks.map (fun b => b.1.id)).Nodup :=
            hpair.imp (fun hlt => Nat.ne_of_lt hlt)
          refine ⟨joined, hjoin, ?_⟩
          intro o ho
          rw [horders] at ho
          obtain ⟨b, hbmem, hbo⟩ := List.mem_map.mp ho
          obtain ⟨hst, hbuy, hidlo, hidhi, htag0⟩ := hblocks b hbmem
          obtain ⟨gp, hzmem, hgmem⟩ := mem_zip_of_mem_left _ _ hlen b hbmem
          obtain ⟨hzf, hzt, hzi⟩ := hzip _ hzmem
          obtain ⟨f0, hf0mem, hf0⟩ := List.mem_map.mp hgmem
          have hfarmo : o.farmer_id = gp.1 := by
            rw [← hbo]
            exact hzf
          constructor
          · have htot : o.total_amount = gp.2.total_amount := by
              rw [← hbo]
              exact hzt
            rw [htot, hfarmo, ← hf0]
            rfl
          · have hoi' : db'.order_items =
                db.order_items ++ (blocks.map Prod.snd).flatten := by
              rw [← hdb]
              exact hoitems
            rw [hoi', List.filter_append]
            have hold : db.order_items.filter
                (fun it => it.order_id == o.id) = [] := by
              rw [List.filter_eq_nil_iff]
              intro it hit
              have hlt := hwf.2 it hit
              simp only [beq_iff_eq]
              rw [← hbo]
              omega
            have hnewf := flatten_filter_blocks blocks o
              (fun b' hb' => (hblocks b' hb').2.2.2.2) hidsnd b hbmem hbo
            rw [hold, hnewf, List.nil_append]
            have hprice := congrArg
              (List.map (fun t : Nat × Int × Int => t.2.2)) hzi
            rw [List.map_map, List.map_map] at hprice
            have hitems : gp.2.items =
                (joined.filter (fun ip => ip.2.farmer_id == gp.1)).map mkSpec := by
              rw [← hf0]
              rfl
            rw [hfarmo]
            rw [hitems] at hprice
            rw [List.map_map] at hprice
            exact hprice

/-- C2 counterexample: with product 10's current price 10 but a cart line
snapshotted at price 5 (quantity 2), checkout produces an order whose
total_amount is 20 — current price × quantity — while the claim's add-time
snapshot sum is 10, and the created order item carries price 10, not the
snapshot 5. -/
theorem c2_snapshot_claim_false :
    (checkout_order dbC2 1 100 cdW).2.toOption.map
        (fun os => os.map (fun o => o.total_amount)) = some [20] ∧
    ((cartItemsOf dbC2 100).map (fun it => it.price * it.quantity)).sum = 10 ∧
    (checkout_order dbC2 1 100 cdW).1.order_items.map (fun it => it.price) = [10] ∧
    (cartItemsOf dbC2 100).map (fun it => it.price) = [5] ∧
    ¬ ((20 : Int) = 10) := by
  refine ⟨?_, ?_, ?_, ?_, ?_⟩ <;> decide

/-- C2 witness (amended claim at a concrete input): applying the theorem at
the very store of the counterexample — the order total is the sum of
current price × quantity over that farmer's lines. -/
theorem c2_checkout_uses_current_price_witness :
    ∃ joined, joinProducts dbC2 (cartItemsOf dbC2 100) = some joined ∧
      ∀ o ∈ (checkout_order dbC2 1 100 cdW).2.toOption.getD [],
        o.total_amount =
          ((joined.filter (fun ip => ip.2.farmer_id == o.farmer_id)).map
            (fun ip => ip.2.price * ip.1.quantity)).sum ∧
        ((checkout_order dbC2 1 100 cdW).1.order_items.filter
            (fun it => it.order_id == o.id)).map (fun it => it.price) =
          (joined.filter (fun ip => ip.2.farmer_id == o.farmer_id)).map
            (fun ip => ip.2.price) :=
  c2_checkout_uses_current_price dbC2 1 100 cdW
    (checkout_order dbC2 1 100 cdW).1
    ((checkout_order dbC2 1 100 cdW).2.toOption.getD [])
    (by decide) (by decide)

/-- C1 witness: applying the checkout theorem at the concrete two-farmer
store `dbW`. -/
theorem c1_checkout_per_farmer_orders_witness :
    dbWF dbW ∧
    (∃ joined, joinProducts dbW (cartItemsOf dbW 100) = some joined ∧
      joined ≠ [] ∧
      (((checkout_order dbW 1 100 cdW).2.toOption.getD []).map
        (fun o => o.farmer_id)).Nodup ∧
      (∀ f, f ∈ ((checkout_order dbW 1 100 cdW).2.toOption.getD []).map
          (fun o => o.farmer_id) ↔
        f ∈ joined.map (fun ip => ip.2.farmer_id)) ∧
      (∀ o ∈ (checkout_order dbW 1 100 cdW).2.toOption.getD [],
        o.status = "pending" ∧ o.buyer_id = 1 ∧
        ((checkout_order dbW 1 100 cdW).1.order_items.filter
            (fun it => it.order_id == o.id)).map
            (fun it => (it.product_id, it.quantity)) =
          (joined.filter (fun ip => ip.2.farmer_id == o.farmer_id)).map
            (fun ip => (ip.2.id, ip.1.quantity))) ∧
      (checkout_order dbW 1 100 cdW).1.orders =
        dbW.orders ++ (checkout_order dbW 1 100 cdW).2.toOption.getD [] ∧
      (∀ it ∈ (checkout_order dbW 1 100 cdW).1.cart_items, it.cart_id ≠ 100) ∧
      (∀ c ∈ (checkout_order dbW 1 100 cdW).1.carts, c.id = 100 → c.total = 0)) :=
  ⟨by decide,
   c1_checkout_per_farmer_orders dbW 1 100 cdW
     (checkout_order dbW 1 100 cdW).1
     ((checkout_order dbW 1 100 cdW).2.toOption.getD [])
     (by decide) (by decide)⟩

/-- C3: the inventory write of both order paths is the non-atomic
read-modify-write "stored quantity afterwards = quantity read just before
the write − ordered quantity" (first conjunct, per item); a successful
direct order applies exactly these sequential decrements for its items
(second), as does checkout for all per-farmer groups in order (third); and
no sufficiency precondition exists: ordering 5 units of a product with
stock 1 succeeds and leaves quantity −4 (fourth). -/
theorem c3_inventory_decrement :
    (∀ (products : List Product) (sp : OSpec) (p : Product),
      (products.filter (fun q => q.id == sp.product_id)).head? = some p →
      ((decStep products sp).filter
        (fun q => q.id == sp.product_id)).head? =
        some { p with quantity := p.quantity - sp.quantity }) ∧
    (∀ (db : DB) (buyerId : Nat) (req : OrderCreateReq) (db' : DB) (o : Order),
      create_order db buyerId req = (db', .ok o) →
      db'.products = decFold req.items db.products) ∧
    (∀ (db : DB) (userId cartId : Nat) (cd : CheckoutData) (db' : DB)
       (orders : List Order),
      checkout_order db userId cartId cd = (db', .ok orders) →
      ∃ joined, joinProducts db (cartItemsOf db cartId) = some joined ∧
        db'.products =
          decFold (((buildGroups joined).map (fun g => g.2.items)).flatten)
            db.products) ∧
    ((create_order dbNeg 1 reqNeg).2.toOption.isSome = true ∧
      (create_order dbNeg 1 reqNeg).1.products.map (fun p => p.quantity) =
        [(-4 : Int)]) := by
  refine ⟨?_, ?_, ?_, by decide, by decide⟩
  · intro products sp p hfind
    have hpmem : p ∈ products.filter (fun q => q.id == sp.product_id) := by
      cases hl : products.filter (fun q => q.id == sp.product_id) with
      | nil => rw [hl] at hfind; simp at hfind
      | cons a t =>
        rw [hl] at hfind
        simp only [List.head?_cons, Option.some.injEq] at hfind
        rw [hfind]
        exact List.mem_cons_self _ _
    have hpid : (p.id == sp.product_id) = true :=
      (List.mem_filter.mp hpmem).2
    unfold decStep
    rw [hfind]
    rw [filter_map_pres _ _ (fun a => by
      by_cases ha : (a.id == sp.product_id) = true <;> simp [ha])]
    rw [List.head?_map, hfind]
    simp only [Option.map_some', Option.some.injEq]
    rw [if_pos hpid]
  · intro db buyerId req db' o h
    unfold create_order at h
    dsimp only [freshId] at h
    split at h
    · simp at h
    · rename_i db3 its heq
      obtain ⟨new, hits, hmap, hoid, hprod, horders, hoi, hcarts, hci,
        husers, hnext⟩ := processSpecs_ok _ _ _ _ _ _ heq
      dsimp only at hprod
      by_cases hempty : its.isEmpty = true
      · rw [if_pos hempty] at h
        have hdb := congrArg Prod.fst h
        simp only at hdb
        rw [← hdb]
        exact hprod
      · rw [if_neg hempty] at h
        have hdb := congrArg Prod.fst h
        simp only at hdb
        rw [← hdb]
        exact hprod
  · intro db userId cartId cd db' orders h
    unfold checkout_order at h
    cases hcart : (db.carts.filter
        (fun c => c.id == cartId && c.user_id == userId)).head? with
    | none =>
      rw [hcart] at h
      simp at h
    | some cart =>
      rw [hcart] at h
      dsimp only at h
      by_cases hemp : (cartItemsOf db cartId).isEmpty = true
      · rw [if_pos hemp] at h
        simp at h
      · rw [if_neg hemp] at h
        split at h
        · simp at h
        · rename_i joined hjoin
          split at h
          · simp at h
          · rename_i db1 created hloop
            have hdb := congrArg Prod.fst h
            simp only at hdb
            obtain ⟨blocks, hres, hords, hoitems, hcarts, hci, husers, hprods,
              hnext, hlen, hblocks, hpair, hzip⟩ :=
              createOrdersLoop_ok _ _ _ _ _ _ _ hloop
            refine ⟨joined, hjoin, ?_⟩
            rw [← hdb]
            exact hprods

/-- C3 witness: the decrement theorem applied at concrete inputs — the
single-step read-modify-write on a stock of 7 ordering 3 leaves 4; the
direct order on `dbNeg` applies exactly the modelled decrement fold; and
the two-farmer checkout's final products are the fold of its groups'
decrements. -/
theorem c3_inventory_decrement_witness :
    ((decStep [sampleProduct 10 2 5 7] { product_id := 10, quantity := 3, price := 5 }).filter
        (fun q => q.id == 10)).head? =
      some { sampleProduct 10 2 5 7 with quantity := 4 } ∧
    (create_order dbNeg 1 reqNeg).1.products =
      decFold reqNeg.items dbNeg.products ∧
    (∃ joined, joinProducts dbW (cartItemsOf dbW 100) = some joined ∧
      (checkout_order dbW 1 100 cdW).1.products =
        decFold (((buildGroups joined).map (fun g => g.2.items)).flatten)
          dbW.products) :=
  ⟨c3_inventory_decrement.1 [sampleProduct 10 2 5 7]
      { product_id := 10, quantity := 3, price := 5 } (sampleProduct 10 2 5 7)
      (by decide),
   c3_inventory_decrement.2.1 dbNeg 1 reqNeg (create_order dbNeg 1 reqNeg).1
      ((create_order dbNeg 1 reqNeg).2.toOption.getD
        { id := 0, buyer_id := 0, farmer_id := 0, total_amount := 0,
          status := "", shipping_address := none, delivery_address := none,
          delivery_notes := none, phone_number := none, payment_info := none,
          created_at := 0 })
      (by decide),
   c3_inventory_decrement.2.2.1 dbW 1 100 cdW
      (checkout_order dbW 1 100 cdW).1
      ((checkout_order dbW 1 100 cdW).2.toOption.getD [])
      (by decide)⟩

/-- C5: login fails with the same 401 invalid-credentials error when no user
row has the email, and when a digest is stored but the supplied password's
hash differs — in both cases with the store untouched; and whenever login
succeeds, the returned user and token identify a user row whose (possibly
just back-filled) stored digest verifies against the supplied password, with
the digest stripped from the returned user. -/
theorem c5_login_invalid_credentials (H : String → String)
    (salt secret : String) (db : DB) (email password : String) :
    (findUserByEmail db email = none →
      login_user H salt secret db email password =
        (db, .error (.unauthorized "Invalid email or password"))) ∧
    (∀ u d, findUserByEmail db email = some u → u.password_hash = some d →
      get_password_hash H salt secret password ≠ d →
      login_user H salt secret db email password =
        (db, .error (.unauthorized "Invalid email or password"))) ∧
    (∀ db' res, login_user H salt secret db email password = (db', .ok res) →
      ∃ u', findUserByEmail db' email = some u' ∧
        verify_password H salt secret password (u'.password_hash.getD "") = true ∧
        res.token.sub = u'.id ∧ res.user.id = u'.id ∧
        res.user.password_hash = none) := by
  refine ⟨?_, ?_, ?_⟩
  · intro h
    unfold login_user
    rw [h]
  · intro u d hu hd hne
    unfold login_user
    rw [hu]
    simp only [hd]
    rw [if_neg]
    simp only [verify_password, Option.getD_some, beq_iff_eq]
    exact hne
  · intro db' res h
    unfold login_user at h
    cases hu : findUserByEmail db email with
    | none =>
      rw [hu] at h
      simp at h
    | some u =>
      rw [hu] at h
      cases hd : u.password_hash with
      | some d =>
        simp only [hd] at h
        by_cases hv : verify_password H salt secret password ((some d).getD "") = true
        · rw [if_pos hv] at h
          have hdb := congrArg Prod.fst h
          have hres := congrArg Prod.snd h
          simp only at hdb
          simp only [Except.ok.injEq] at hres
          refine ⟨u, ?_, ?_, ?_, ?_, ?_⟩
          · rw [← hdb]; exact hu
          · rw [hd]; exact hv
          · rw [← hres]
          · rw [← hres]; rfl
          · rw [← hres]; rfl
        · rw [if_neg hv] at h
          simp at h
      | none =>
        simp only [hd] at h
        rw [if_pos] at h
        · have hdb := congrArg Prod.fst h
          have hres := congrArg Prod.snd h
          simp only at hdb
          simp only [Except.ok.injEq] at hres
          refine ⟨{ u with password_hash := some (get_password_hash H salt secret password) }, ?_, ?_, ?_, ?_, ?_⟩
          · rw [← hdb]
            unfold findUserByEmail
            have hcomm := filter_map_pres
              (fun v => if v.id == u.id then
                { v with password_hash := some (get_password_hash H salt secret password) }
                else v)
              (fun v => v.email == email)
              (fun a => by by_cases ha : (a.id == u.id) = true <;> simp [ha])
              db.users
            dsimp only
            rw [hcomm, List.head?_map]
            unfold findUserByEmail at hu
            rw [hu]
            simp
          · simp [verify_password]
          · rw [← hres]
          · rw [← hres]; rfl
          · rw [← hres]; rfl
        · simp [verify_password]

/-- C10: adding a product already present in the user's cart replaces the
existing (cart, product) line wholesale: afterwards every line for that key
carries exactly the newly supplied quantity (not the old plus the new) and
the product's current price, and the number of lines for the key is
unchanged (no duplication). -/
theorem c10_add_to_cart_replaces (db : DB) (userId productId : Nat)
    (qty : Int) (c : Cart) (p : Product) (x : CartItem)
    (hc : (db.carts.filter (fun c0 => c0.user_id == userId)).head? = some c)
    (hp : (db.products.filter (fun p0 => p0.id == productId)).head? = some p)
    (hx : x ∈ db.cart_items) (hx1 : x.cart_id = c.id)
    (hx2 : x.product_id = productId) :
    ∃ db', add_to_cart db userId productId qty = (db', .ok ()) ∧
      (∀ y ∈ db'.cart_items, y.cart_id = c.id → y.product_id = productId →
        y.quantity = qty ∧ y.price = p.price) ∧
      (db'.cart_items.filter
        (fun y => y.cart_id == c.id && y.product_id == productId)).length =
      (db.cart_items.filter
        (fun y => y.cart_id == c.id && y.product_id == productId)).length := by
  have hany : db.cart_items.any
      (fun y => y.cart_id == c.id && y.product_id == productId) = true :=
    List.any_eq_true.mpr ⟨x, hx, by simp [hx1, hx2]⟩
  unfold add_to_cart
  rw [hc]
  dsimp only
  rw [hp]
  dsimp only [freshId, setCartTotal, upsertCartItem]
  rw [if_pos hany]
  refine ⟨_, rfl, ?_, ?_⟩
  · intro y hy hyc hyp
    dsimp only at hy
    obtain ⟨x0, hx0, hfx0⟩ := List.mem_map.mp hy
    by_cases hk : (x0.cart_id == c.id && x0.product_id == productId) = true
    · rw [if_pos hk] at hfx0
      rw [← hfx0]
      exact ⟨rfl, rfl⟩
    · rw [if_neg hk] at hfx0
      rw [← hfx0] at hyc hyp
      exact absurd (by simp [hyc, hyp]) hk
  · dsimp only
    rw [← List.countP_eq_length_filter, ← List.countP_eq_length_filter,
      List.countP_map]
    apply List.countP_congr
    intro a _
    by_cases hk : (a.cart_id == c.id && a.product_id == productId) = true
    · rw [Function.comp_apply, if_pos hk, hk]
      simp
    · rw [Function.comp_apply, if_neg hk]

/-- C6: after each successful cart mutation (add item, remove item, clear)
the acting user's cart stores a total equal to the sum of line price × line
quantity over the line items persisted after the mutation; after clear the
total is 0. -/
theorem c6_cart_total_recomputed (db : DB) (userId productId : Nat) (qty : Int) :
    (∀ db', add_to_cart db userId productId qty = (db', .ok ()) →
      ∀ c', (db'.carts.filter (fun c => c.user_id == userId)).head? = some c' →
        c'.total = cartLineSum db' c'.id) ∧
    (∀ db', remove_from_cart db userId productId = (db', .ok ()) →
      ∀ c', (db'.carts.filter (fun c => c.user_id == userId)).head? = some c' →
        c'.total = cartLineSum db' c'.id) ∧
    (∀ db', clear_cart db userId = (db', .ok ()) →
      ∀ c', (db'.carts.filter (fun c => c.user_id == userId)).head? = some c' →
        c'.total = cartLineSum db' c'.id ∧ c'.total = 0) := by
  refine ⟨?_, ?_, ?_⟩
  · intro db' hrun c' hc'
    unfold add_to_cart at hrun
    cases hc : (db.carts.filter (fun c => c.user_id == userId)).head? with
    | some c =>
      rw [hc] at hrun
      dsimp only [freshId] at hrun
      cases hp : (db.products.filter (fun p => p.id == productId)).head? with
      | none =>
        rw [hp] at hrun
        simp at hrun
      | some p =>
        rw [hp] at hrun
        dsimp only [freshId] at hrun
        have hdb := congrArg Prod.fst hrun
        simp only at hdb
        subst hdb
        rw [setCartTotal_carts] at hc'
        dsimp only [freshId] at hc'
        rw [filter_map_pres _ _ (total_write_pres_user userId c.id _),
          List.head?_map, hc] at hc'
        simp only [Option.map_some', Option.some.injEq] at hc'
        rw [cartLineSum_setCartTotal, ← hc']
        simp only [beq_self_eq_true, if_true]
    | none =>
      rw [hc] at hrun
      dsimp only [freshId] at hrun
      cases hp : (db.products.filter (fun p => p.id == productId)).head? with
      | none =>
        rw [hp] at hrun
        simp at hrun
      | some p =>
        rw [hp] at hrun
        dsimp only [freshId] at hrun
        have hdb := congrArg Prod.fst hrun
        simp only at hdb
        subst hdb
        rw [setCartTotal_carts] at hc'
        dsimp only [freshId] at hc'
        rw [filter_map_pres _ _ (total_write_pres_user userId db.nextId _),
          List.filter_append, List.head?_eq_none_iff.mp hc] at hc'
        simp only [List.nil_append, List.filter_cons, beq_self_eq_true,
          if_true, List.filter_nil, List.map_cons, List.head?_cons,
          Option.some.injEq] at hc'
        rw [cartLineSum_setCartTotal, ← hc']
  · intro db' hrun c' hc'
    unfold remove_from_cart at hrun
    cases hc : (db.carts.filter (fun c => c.user_id == userId)).head? with
    | none =>
      rw [hc] at hrun
      simp at hrun
    | some c =>
      rw [hc] at hrun
      dsimp only [freshId] at hrun
      have hdb := congrArg Prod.fst hrun
      simp only at hdb
      subst hdb
      rw [setCartTotal_carts] at hc'
      dsimp only [freshId] at hc'
      rw [filter_map_pres _ _ (total_write_pres_user userId c.id _),
        List.head?_map, hc] at hc'
      simp only [Option.map_some', Option.some.injEq] at hc'
      rw [cartLineSum_setCartTotal, ← hc']
      simp only [beq_self_eq_true, if_true]
  · intro db' hrun c' hc'
    unfold clear_cart at hrun
    cases hc : (db.carts.filter (fun c => c.user_id == userId)).head? with
    | none =>
      rw [hc] at hrun
      simp at hrun
    | some c =>
      rw [hc] at hrun
      dsimp only [freshId] at hrun
      have hdb := congrArg Prod.fst hrun
      simp only at hdb
      subst hdb
      rw [setCartTotal_carts] at hc'
      dsimp only [freshId] at hc'
      rw [filter_map_pres _ _ (total_write_pres_user userId c.id _),
        List.head?_map, hc] at hc'
      simp only [Option.map_some', Option.some.injEq] at hc'
      rw [cartLineSum_setCartTotal, ← hc']
      simp only [beq_self_eq_true, if_true]
      constructor
      · unfold cartLineSum
        dsimp only
        rw [List.filter_filter]
        simp
      · trivial

/-- C5 witness: the login theorem applied at a concrete store — unknown
email and wrong password both yield the identical 401 with the store
untouched, and the successful login's user and token identify the row whose
stored digest verifies. -/
theorem c5_login_invalid_credentials_witness :
    login_user (fun s => s) "SALT" "KEY" dbC5 "nobody@x" "pw" =
      (dbC5, .error (.unauthorized "Invalid email or password")) ∧
    login_user (fun s => s) "SALT" "KEY" dbC5 "a@x" "wrong" =
      (dbC5, .error (.unauthorized "Invalid email or password")) ∧
    (∃ u', findUserByEmail dbC5 "a@x" = some u' ∧
      verify_password (fun s => s) "SALT" "KEY" "pw" (u'.password_hash.getD "") = true ∧
      resC5.token.sub = u'.id ∧ resC5.user.id = u'.id ∧
      resC5.user.password_hash = none) :=
  ⟨(c5_login_invalid_credentials (fun s => s) "SALT" "KEY" dbC5 "nobody@x" "pw").1
      (by decide),
   (c5_login_invalid_credentials (fun s => s) "SALT" "KEY" dbC5 "a@x" "wrong").2.1
      aliceC5 "pwSALTKEY" (by decide) (by decide) (by decide),
   (c5_login_invalid_credentials (fun s => s) "SALT" "KEY" dbC5 "a@x" "pw").2.2
      dbC5 resC5 (by decide)⟩

/-- C10 witness: re-adding product 10 (already in cart 100 with quantity 1
at snapshot price 5) with quantity 3 leaves a single line with quantity
exactly 3 at the product's current price 7. -/
theorem c10_add_to_cart_replaces_witness :
    ∃ db', add_to_cart dbC6 1 10 3 = (db', .ok ()) ∧
      (∀ y ∈ db'.cart_items, y.cart_id = 100 → y.product_id = 10 →
        y.quantity = 3 ∧ y.price = 7) ∧
      (db'.cart_items.filter
        (fun y => y.cart_id == 100 && y.product_id == 10)).length =
      (dbC6.cart_items.filter
        (fun y => y.cart_id == 100 && y.product_id == 10)).length :=
  c10_add_to_cart_replaces dbC6 1 10 3 ⟨100, 1, 5⟩ (sampleProduct 10 2 7 50)
    ⟨200, 100, 10, 1, 5⟩ (by decide) (by decide) (by decide) (by decide)
    (by decide)

/-- C6 witness: the cart-total theorem applied at a concrete store — after
the add the stored total 21 equals the recomputed line sum, and after
remove/clear the stored total is the (empty) line sum 0. -/
theorem c6_cart_total_recomputed_witness :
    (21 : Int) = cartLineSum dbC6add 100 ∧
    (0 : Int) = cartLineSum dbC6rm 100 ∧
    ((0 : Int) = cartLineSum dbC6rm 100 ∧ (0 : Int) = 0) :=
  ⟨(c6_cart_total_recomputed dbC6 1 10 3).1 dbC6add (by decide)
      ⟨100, 1, 21⟩ (by decide),
   (c6_cart_total_recomputed dbC6 1 10 3).2.1 dbC6rm (by decide)
      ⟨100, 1, 0⟩ (by decide),
   (c6_cart_total_recomputed dbC6 1 10 3).2.2 dbC6rm (by decide)
      ⟨100, 1, 0⟩ (by decide)⟩

end AgroNexus
